import Mathlib

/-!
# Structural Snapshot & Regression Detection Engine — verification

Shallow embedding of the regression-detection core of the `demo-web-app`
repository (`agent-python/baseline.py` and `agent-python/quality_checks.py`)
together with proofs about the diff, quality-rule, and verdict logic.

Network fetching and HTML parsing are external collaborators: the embedding
starts from a `RawPage` value holding exactly the facts the Python code reads
off the parsed soup (attribute values as `Option String`, since BeautifulSoup
`get` returns `None` for an absent attribute).  Fallible steps (the Python
`try`/`except` blocks and the one expression that can raise inside them) are
modelled with `Except`/explicit failure flags.  Constant remediation texts
(`impact`/`fix`/`code` keys) carried by the Python issue dictionaries are not
load-bearing and are elided; `type`, `element`, `message`, `count`,
`severity`, `details` and `items` are kept.
-/

/-- Severity labels as emitted by `baseline.py` regressions. -/
inductive Severity where
  | CRITICAL
  | HIGH
  | MEDIUM
deriving DecidableEq, Repr

/-- Numeric rank of a severity: Critical > High > Medium (spec section 3). -/
def sevRank : Severity → Nat
  | .CRITICAL => 5
  | .HIGH => 4
  | .MEDIUM => 3

/-- The `type` tags of regression / improvement entries in
`compare_with_baseline`. -/
inductive RegType where
  | MISSING_BUTTONS
  | NEW_BUTTONS
  | MISSING_ELEMENTS
  | NEW_ELEMENTS
  | MISSING_SCRIPTS
  | MISSING_STYLES
deriving DecidableEq, Repr

/-- The `status` values returned by `compare_with_baseline`. -/
inductive CStatus where
  | NO_BASELINE
  | ERROR
  | REGRESSIONS_FOUND
  | HEALTHY
deriving DecidableEq, Repr

/-- A button as seen in raw markup: `btn.get('id')`, stripped text, and
`btn.get('class', [])`. -/
structure RawBtn where
  id : Option String
  text : String
  classes : Option (List String)
deriving DecidableEq, Repr

/-- An input element as seen in raw markup. -/
structure RawInp where
  id : Option String
  itype : Option String
  name : Option String
deriving DecidableEq, Repr

/-- The `<title>` tag: `.string` is `None` when the tag has no single string
child (e.g. an empty `<title></title>`). -/
structure TitleTag where
  string : Option String
deriving DecidableEq, Repr

/-- The facts `baseline.py` reads from a parsed page: title tag, `src`
attributes of `<script>` tags, `href` attributes of stylesheet `<link>` tags,
buttons, inputs, the id values of all elements carrying an `id` attribute
(`soup.find_all(id=True)`), and tag counts used only for `element_counts`. -/
structure RawPage where
  titleTag : Option TitleTag
  scripts : List (Option String)
  styleLinks : List (Option String)
  buttons : List RawBtn
  inputs : List RawInp
  idElems : List String
  formCount : Nat
  anchorCount : Nat
  imageCount : Nat
deriving DecidableEq, Repr

/-- A button record stored in a captured baseline. -/
structure BButton where
  id : Option String
  text : String
  classes : List String
deriving DecidableEq, Repr

/-- An input record stored in a captured baseline. -/
structure BInput where
  id : Option String
  itype : Option String
  name : Option String
deriving DecidableEq, Repr

/-- The `element_counts` mapping of a captured baseline. -/
structure ElementCounts where
  buttons : Nat
  inputs : Nat
  forms : Nat
  links : Nat
  images : Nat
  scripts : Nat
  styles : Nat
deriving DecidableEq, Repr

/-- The `structure` sub-document of a captured baseline
(`capture_baseline` in `baseline.py`). -/
structure BaselineStructure where
  title : Option String
  scripts : List String
  stylesheets : List (Option String)
  buttons : List BButton
  inputs : List BInput
  critical_ids : List String
  element_counts : ElementCounts
deriving DecidableEq, Repr

/-- A captured baseline document. -/
structure Baseline where
  url : String
  timestamp : String
  struct : BaselineStructure
deriving DecidableEq, Repr

/-- Python `str.strip()`: drop leading and trailing whitespace.  Defined by
structural recursion on the character list so that it evaluates by `rfl`. -/
def pyStrip (s : String) : String :=
  ⟨((s.data.dropWhile Char.isWhitespace).reverse.dropWhile Char.isWhitespace).reverse⟩

/-- `capture_baseline` (`baseline.py`), the pure structure-building part:
the dictionary assembled from the soup before it is written to disk.
`scripts` uses `script.get('src', 'inline')`; `stylesheets` uses
`link.get('href')` with no default (so an href-less link stores null);
`critical_ids` keeps `elem.get('id')` only when truthy (non-empty);
the stored title is `soup.title.string if soup.title else ''`. -/
def capture_baseline (url ts : String) (p : RawPage) : Baseline :=
  { url := url
    timestamp := ts
    struct :=
      { title := match p.titleTag with
          | none => some ""
          | some t => t.string
        scripts := p.scripts.map (fun o => o.getD "inline")
        stylesheets := p.styleLinks
        buttons := p.buttons.map (fun rb =>
          { id := rb.id, text := pyStrip rb.text, classes := rb.classes.getD [] })
        inputs := p.inputs.map (fun ri =>
          { id := ri.id, itype := ri.itype, name := ri.name })
        critical_ids := p.idElems.filter (fun v => decide (v ≠ ""))
        element_counts :=
          { buttons := p.buttons.length
            inputs := p.inputs.length
            forms := p.formCount
            links := p.anchorCount
            images := p.imageCount
            scripts := p.scripts.length
            styles := p.styleLinks.length } } }

/-- A current-deployment button inside `compare_with_baseline`. -/
structure CBtn where
  id : Option String
  text : String
deriving DecidableEq, Repr

/-- The `current` dictionary built inside `compare_with_baseline`. -/
structure CurrentSnap where
  buttons : List CBtn
  critical_ids : List String
  scripts : List String
  stylesheets : List (Option String)
deriving DecidableEq, Repr

/-- Building the `current` dictionary from the freshly fetched page
(`compare_with_baseline`, the block right after the fetch). -/
def currentOf (p : RawPage) : CurrentSnap :=
  { buttons := p.buttons.map (fun rb => { id := rb.id, text := pyStrip rb.text })
    critical_ids := p.idElems.filter (fun v => decide (v ≠ ""))
    scripts := p.scripts.map (fun o => o.getD "inline")
    stylesheets := p.styleLinks }

/-- Python set difference on the set-of-list representation: keep the members
of `l` that are not members of `m`. -/
def listDiff {α : Type} [DecidableEq α] (l m : List α) : List α :=
  l.filter (fun x => decide (x ∉ m))

/-- `{btn['id'] for btn in ... if btn['id']}`: the set of truthy (present and
non-empty) ids of a button list. -/
def truthyIds (l : List (Option String)) : List String :=
  (l.filterMap (fun o => match o with
    | some v => if v = "" then none else some v
    | none => none)).dedup

/-- `baseline_button_ids` in `compare_with_baseline`. -/
def baseline_button_ids (b : Baseline) : List String :=
  truthyIds (b.struct.buttons.map (fun bt => bt.id))

/-- `current_button_ids` in `compare_with_baseline`. -/
def current_button_ids (c : CurrentSnap) : List String :=
  truthyIds (c.buttons.map (fun bt => bt.id))

/-- `missing_buttons = baseline_button_ids - current_button_ids`. -/
def missing_buttons (b : Baseline) (c : CurrentSnap) : List String :=
  listDiff (baseline_button_ids b) (current_button_ids c)

/-- `new_buttons = current_button_ids - baseline_button_ids`. -/
def new_buttons (b : Baseline) (c : CurrentSnap) : List String :=
  listDiff (current_button_ids c) (baseline_button_ids b)

/-- `baseline_ids = set(baseline['structure']['critical_ids'])`. -/
def baseline_ids (b : Baseline) : List String :=
  b.struct.critical_ids.dedup

/-- `current_ids = set(current['critical_ids'])`. -/
def current_ids (c : CurrentSnap) : List String :=
  c.critical_ids.dedup

/-- `missing_ids = baseline_ids - current_ids`. -/
def missing_ids (b : Baseline) (c : CurrentSnap) : List String :=
  listDiff (baseline_ids b) (current_ids c)

/-- `new_ids = current_ids - baseline_ids`. -/
def new_ids (b : Baseline) (c : CurrentSnap) : List String :=
  listDiff (current_ids c) (baseline_ids b)

/-- `missing_scripts = set(baseline scripts) - set(current scripts)`. -/
def missing_scripts (b : Baseline) (c : CurrentSnap) : List String :=
  listDiff b.struct.scripts.dedup c.scripts.dedup

/-- `missing_styles = set(baseline stylesheets) - set(current stylesheets)`.
Stylesheet locations are `Option String` because `link.get('href')` has no
default in the source. -/
def missing_styles (b : Baseline) (c : CurrentSnap) : List (Option String) :=
  listDiff b.struct.stylesheets.dedup c.stylesheets.dedup

/-- One regression / improvement entry.  Improvements carry no severity key.
Items of the `MISSING_STYLES` entry can be null (`None` hrefs), hence
`Option String`. -/
structure Regression where
  rtype : RegType
  severity : Option Severity
  details : String
  items : List (Option String)
deriving DecidableEq, Repr

/-- `', '.join(...)`. -/
def joinComma (l : List String) : String :=
  String.intercalate ", " l

/-- Python raises `TypeError` in `', '.join(missing_styles)` when the
(non-empty) missing-stylesheet set contains `None`; this flag marks exactly
that situation, the only failure point of the comparison body. -/
def stylesJoinFails (b : Baseline) (c : CurrentSnap) : Bool :=
  !(missing_styles b c).isEmpty && (missing_styles b c).any (fun o => o.isNone)

/-- The `regressions` list built by `compare_with_baseline` when no
exception is raised, in source append order. -/
def compareRegs (b : Baseline) (c : CurrentSnap) : List Regression :=
  (if (missing_buttons b c).isEmpty then [] else
    [{ rtype := .MISSING_BUTTONS
       severity := some .HIGH
       details := "Missing buttons: " ++ joinComma (missing_buttons b c)
       items := (missing_buttons b c).map some }]) ++
  (if (missing_ids b c).isEmpty then [] else
    [{ rtype := .MISSING_ELEMENTS
       severity := some .HIGH
       details := "Missing element IDs: " ++ joinComma (missing_ids b c)
       items := (missing_ids b c).map some }]) ++
  (if (missing_scripts b c).isEmpty then [] else
    [{ rtype := .MISSING_SCRIPTS
       severity := some .CRITICAL
       details := "Missing JavaScript files: " ++ joinComma (missing_scripts b c)
       items := (missing_scripts b c).map some }]) ++
  (if (missing_styles b c).isEmpty then [] else
    [{ rtype := .MISSING_STYLES
       severity := some .MEDIUM
       details := "Missing CSS files: " ++
         joinComma ((missing_styles b c).reduceOption)
       items := missing_styles b c }])

/-- The `improvements` list built by `compare_with_baseline` when no
exception is raised, in source append order. -/
def compareImps (b : Baseline) (c : CurrentSnap) : List Regression :=
  (if (new_buttons b c).isEmpty then [] else
    [{ rtype := .NEW_BUTTONS
       severity := none
       details := "New buttons added: " ++ joinComma (new_buttons b c)
       items := (new_buttons b c).map some }]) ++
  (if (new_ids b c).isEmpty then [] else
    [{ rtype := .NEW_ELEMENTS
       severity := none
       details := "New element IDs: " ++ joinComma (new_ids b c)
       items := (new_ids b c).map some }])

/-- The `summary` mapping of a successful comparison. -/
structure CompareSummary where
  total_regressions : Nat
  total_improvements : Nat
  critical_issues : Nat
  high_issues : Nat
deriving DecidableEq, Repr

/-- Result document of `compare_with_baseline`.  Keys absent in some return
paths (`message`, `baseline_timestamp`, `summary`) are `Option`s. -/
structure CompareResult where
  status : CStatus
  message : Option String
  baseline_timestamp : Option String
  regressions : List Regression
  improvements : List Regression
  summary : Option CompareSummary
deriving DecidableEq, Repr

/-- The `except` return path of `compare_with_baseline`. -/
def compareErrorResult (e : String) : CompareResult :=
  { status := .ERROR
    message := some ("Error comparing with baseline: " ++ e)
    baseline_timestamp := none
    regressions := []
    improvements := []
    summary := none }

/-- The `NO_BASELINE` return path of `compare_with_baseline`. -/
def noBaselineResult : CompareResult :=
  { status := .NO_BASELINE
    message := some "No baseline found. Run baseline.py to create one."
    baseline_timestamp := none
    regressions := []
    improvements := []
    summary := none }

/-- The successful return document of `compare_with_baseline`. -/
def okCompareResult (b : Baseline) (c : CurrentSnap) : CompareResult :=
  let regs := compareRegs b c
  let imps := compareImps b c
  { status := if regs.isEmpty then .HEALTHY else .REGRESSIONS_FOUND
    message := none
    baseline_timestamp := some b.timestamp
    regressions := regs
    improvements := imps
    summary := some
      { total_regressions := regs.length
        total_improvements := imps.length
        critical_issues :=
          (regs.filter (fun r => r.severity == some Severity.CRITICAL)).length
        high_issues :=
          (regs.filter (fun r => r.severity == some Severity.HIGH)).length } }

/-- `compare_with_baseline` (`baseline.py`): a missing baseline yields
`NO_BASELINE`; a failed fetch of the current deployment, or the stylesheet
join raising, falls into the `except` path with an `ERROR` document and
empty finding lists; otherwise the comparison document is returned. -/
def compare_with_baseline (b? : Option Baseline)
    (page? : Except String RawPage) : CompareResult :=
  match b? with
  | none => noBaselineResult
  | some b =>
    match page? with
    | .error e => compareErrorResult e
    | .ok p =>
      let c := currentOf p
      if stylesJoinFails b c then
        compareErrorResult "sequence item 0: expected str instance, NoneType found"
      else
        okCompareResult b c

/-! ## Helper lemmas -/

theorem mem_listDiff {α : Type} [DecidableEq α] {a : α} {l m : List α} :
    a ∈ listDiff l m ↔ a ∈ l ∧ a ∉ m := by
  simp [listDiff, List.mem_filter]

theorem mem_truthyIds {v : String} {l : List (Option String)} :
    v ∈ truthyIds l ↔ some v ∈ l ∧ v ≠ "" := by
  unfold truthyIds
  rw [List.mem_dedup, List.mem_filterMap]
  constructor
  · rintro ⟨o, ho, h⟩
    cases o with
    | none => simp at h
    | some w =>
      by_cases hw : w = "" <;> simp [hw] at h
      · exact ⟨h ▸ ho, h ▸ hw⟩
  · rintro ⟨hmem, hne⟩
    exact ⟨some v, hmem, by simp [hne]⟩

theorem mem_missing_buttons {b : Baseline} {c : CurrentSnap} {v : String} :
    v ∈ missing_buttons b c ↔
      (some v ∈ b.struct.buttons.map (fun bt => bt.id) ∧ v ≠ "") ∧
      ¬ (some v ∈ c.buttons.map (fun bt => bt.id) ∧ v ≠ "") := by
  rw [missing_buttons, mem_listDiff, baseline_button_ids, current_button_ids,
    mem_truthyIds, mem_truthyIds]

theorem mem_missing_ids {b : Baseline} {c : CurrentSnap} {v : String} :
    v ∈ missing_ids b c ↔
      v ∈ b.struct.critical_ids ∧ v ∉ c.critical_ids := by
  rw [missing_ids, mem_listDiff, baseline_ids, current_ids,
    List.mem_dedup, List.mem_dedup]

theorem mem_missing_scripts {b : Baseline} {c : CurrentSnap} {v : String} :
    v ∈ missing_scripts b c ↔
      v ∈ b.struct.scripts ∧ v ∉ c.scripts := by
  rw [missing_scripts, mem_listDiff, List.mem_dedup, List.mem_dedup]

theorem mem_missing_styles {b : Baseline} {c : CurrentSnap} {o : Option String} :
    o ∈ missing_styles b c ↔
      o ∈ b.struct.stylesheets ∧ o ∉ c.stylesheets := by
  rw [missing_styles, mem_listDiff, List.mem_dedup, List.mem_dedup]

/-- When the baseline exists, the fetch succeeds, and the stylesheet join
does not raise, `compare_with_baseline` returns the ordinary comparison
document. -/
theorem compare_eq_ok {b : Baseline} {p : RawPage}
    (hs : stylesJoinFails b (currentOf p) = false) :
    compare_with_baseline (some b) (.ok p) = okCompareResult b (currentOf p) := by
  simp [compare_with_baseline, hs]

theorem countP_regBlock (cond : Bool) (r : Regression) (q : Regression → Bool) :
    List.countP q (if cond then ([] : List Regression) else [r]) =
      if cond then 0 else (if q r then 1 else 0) := by
  cases cond <;> simp [List.countP_cons]

/-- Members of an if-empty-guarded singleton block. -/
theorem mem_regBlock {cond : Bool} {r x : Regression}
    (h : x ∈ (if cond then ([] : List Regression) else [r])) : x = r := by
  cases cond <;> simp_all

/-! ## C2: missing buttons produce exactly one HIGH MISSING_BUTTONS entry -/

/-- C2: for every baseline and fetched page on which the diff completes, the
regression list contains exactly one `MISSING_BUTTONS` entry when the set
difference of truthy baseline button ids minus current button ids is
non-empty and none otherwise; that entry has severity HIGH and lists all
missing ids together; and membership in the missing set is exactly
set-difference membership. -/
theorem c2_missing_buttons_single_high (b : Baseline) (p : RawPage)
    (hs : stylesJoinFails b (currentOf p) = false) :
    ((compare_with_baseline (some b) (.ok p)).regressions.countP
        (fun r => r.rtype == RegType.MISSING_BUTTONS) =
      if (missing_buttons b (currentOf p)).isEmpty then 0 else 1) ∧
    (∀ r ∈ (compare_with_baseline (some b) (.ok p)).regressions,
      r.rtype = RegType.MISSING_BUTTONS →
        r.severity = some Severity.HIGH ∧
        r.items = (missing_buttons b (currentOf p)).map some) ∧
    (∀ v : String, v ∈ missing_buttons b (currentOf p) ↔
      v ∈ baseline_button_ids b ∧ v ∉ current_button_ids (currentOf p)) := by
  rw [compare_eq_ok hs]
  refine ⟨?_, ?_, ?_⟩
  · show List.countP _ (compareRegs b (currentOf p)) = _
    rw [compareRegs]
    simp only [List.countP_append, countP_regBlock]
    split <;> simp
  · intro r hr hty
    have hr2 : r ∈ compareRegs b (currentOf p) := hr
    rw [compareRegs] at hr2
    simp only [List.mem_append] at hr2
    rcases hr2 with ((h | h) | h) | h
    · have := mem_regBlock h
      subst this
      exact ⟨rfl, rfl⟩
    · have := mem_regBlock h
      subst this; simp at hty
    · have := mem_regBlock h
      subst this; simp at hty
    · have := mem_regBlock h
      subst this; simp at hty
  · intro v
    rw [missing_buttons, mem_listDiff]

/-- Concrete scenario-1 baseline page: buttons increment / decrement / reset. -/
def c2PageBase : RawPage :=
  { titleTag := some { string := some "Counter" }
    scripts := [some "app.js"]
    styleLinks := [some "style.css"]
    buttons := [{ id := some "increment", text := "+", classes := none },
                { id := some "decrement", text := "-", classes := none },
                { id := some "reset", text := "Reset", classes := none }]
    inputs := []
    idElems := ["count", "increment", "decrement", "reset"]
    formCount := 0
    anchorCount := 0
    imageCount := 0 }

/-- Concrete scenario-1 baseline. -/
def c2Baseline : Baseline :=
  capture_baseline "http://example.test/" "2026-01-01T00:00:00" c2PageBase

/-- Concrete scenario-1 current page: the increment button is gone. -/
def c2PageCur : RawPage :=
  { c2PageBase with
    buttons := [{ id := some "decrement", text := "-", classes := none },
                { id := some "reset", text := "Reset", classes := none }]
    idElems := ["count", "decrement", "reset"] }

theorem c2_witness :
    stylesJoinFails c2Baseline (currentOf c2PageCur) = false ∧
    missing_buttons c2Baseline (currentOf c2PageCur) = ["increment"] ∧
    (compare_with_baseline (some c2Baseline) (.ok c2PageCur)).regressions.countP
      (fun r => r.rtype == RegType.MISSING_BUTTONS) = 1 :=
  ⟨rfl, rfl, by
    have h := c2_missing_buttons_single_high c2Baseline c2PageCur rfl
    rw [h.1]
    rfl⟩

/-! ## C3: the critical-id check defaults to the full baseline id set -/

/-- C3: `compare_with_baseline` takes no explicit critical-id list; its
critical-id check diffs `set(baseline['structure']['critical_ids'])` — the
full set of ids stored at capture time — against the current id set: exactly
one HIGH `MISSING_ELEMENTS` entry is emitted when that difference is
non-empty (listing all of it) and none otherwise, and membership in the
difference is exactly "in the baseline id set and not in the current id set"
(not membership in any fixed hardcoded list). -/
theorem c3_critical_ids_default_is_baseline_set (b : Baseline) (p : RawPage)
    (hs : stylesJoinFails b (currentOf p) = false) :
    ((compare_with_baseline (some b) (.ok p)).regressions.countP
        (fun r => r.rtype == RegType.MISSING_ELEMENTS) =
      if (missing_ids b (currentOf p)).isEmpty then 0 else 1) ∧
    (∀ r ∈ (compare_with_baseline (some b) (.ok p)).regressions,
      r.rtype = RegType.MISSING_ELEMENTS →
        r.severity = some Severity.HIGH ∧
        r.items = (missing_ids b (currentOf p)).map some) ∧
    (∀ v : String, v ∈ missing_ids b (currentOf p) ↔
      v ∈ b.struct.critical_ids ∧ v ∉ (currentOf p).critical_ids) := by
  rw [compare_eq_ok hs]
  refine ⟨?_, ?_, ?_⟩
  · show List.countP _ (compareRegs b (currentOf p)) = _
    rw [compareRegs]
    simp only [List.countP_append, countP_regBlock]
    split <;> simp
  · intro r hr hty
    have hr2 : r ∈ compareRegs b (currentOf p) := hr
    rw [compareRegs] at hr2
    simp only [List.mem_append] at hr2
    rcases hr2 with ((h | h) | h) | h
    · have := mem_regBlock h
      subst this; simp at hty
    · have := mem_regBlock h
      subst this; exact ⟨rfl, rfl⟩
    · have := mem_regBlock h
      subst this; simp at hty
    · have := mem_regBlock h
      subst this; simp at hty
  · intro v
    exact mem_missing_ids

/-- Concrete page whose only element id, `customWidget`, lies outside the
hardcoded list `count/increment/decrement/reset` of `agent.py`. -/
def c3PageBase : RawPage :=
  { titleTag := some { string := some "Widgets" }
    scripts := []
    styleLinks := []
    buttons := []
    inputs := []
    idElems := ["customWidget"]
    formCount := 0
    anchorCount := 0
    imageCount := 0 }

def c3Baseline : Baseline :=
  capture_baseline "http://example.test/" "2026-01-02T00:00:00" c3PageBase

/-- Current page: `customWidget` has disappeared. -/
def c3PageCur : RawPage :=
  { c3PageBase with idElems := [] }

theorem c3_witness :
    stylesJoinFails c3Baseline (currentOf c3PageCur) = false ∧
    missing_ids c3Baseline (currentOf c3PageCur) = ["customWidget"] ∧
    (compare_with_baseline (some c3Baseline) (.ok c3PageCur)).regressions.countP
      (fun r => r.rtype == RegType.MISSING_ELEMENTS) = 1 :=
  ⟨rfl, rfl, by
    have h := c3_critical_ids_default_is_baseline_set c3Baseline c3PageCur rfl
    rw [h.1]
    rfl⟩

/-! ## C4: missing scripts are CRITICAL, missing stylesheets MEDIUM -/

/-- C4: every script location present in the baseline scripts set but absent
from the current one appears in a CRITICAL `MISSING_SCRIPTS` regression, every
such stylesheet location appears in a MEDIUM `MISSING_STYLES` regression,
those are the only severities those entry kinds carry, and the script
severity ranks strictly above the stylesheet severity. -/
theorem c4_scripts_critical_styles_medium (b : Baseline) (p : RawPage)
    (hs : stylesJoinFails b (currentOf p) = false) :
    (∀ r ∈ (compare_with_baseline (some b) (.ok p)).regressions,
      r.rtype = RegType.MISSING_SCRIPTS →
        r.severity = some Severity.CRITICAL ∧
        r.items = (missing_scripts b (currentOf p)).map some) ∧
    (∀ r ∈ (compare_with_baseline (some b) (.ok p)).regressions,
      r.rtype = RegType.MISSING_STYLES →
        r.severity = some Severity.MEDIUM ∧
        r.items = missing_styles b (currentOf p)) ∧
    (∀ v : String, v ∈ b.struct.scripts → v ∉ (currentOf p).scripts →
      ∃ r ∈ (compare_with_baseline (some b) (.ok p)).regressions,
        r.rtype = RegType.MISSING_SCRIPTS ∧ r.severity = some Severity.CRITICAL ∧
        some v ∈ r.items) ∧
    (∀ o : Option String, o ∈ b.struct.stylesheets → o ∉ (currentOf p).stylesheets →
      ∃ r ∈ (compare_with_baseline (some b) (.ok p)).regressions,
        r.rtype = RegType.MISSING_STYLES ∧ r.severity = some Severity.MEDIUM ∧
        o ∈ r.items) ∧
    sevRank Severity.MEDIUM < sevRank Severity.CRITICAL := by
  rw [compare_eq_ok hs]
  refine ⟨?_, ?_, ?_, ?_, by decide⟩
  · intro r hr hty
    have hr2 : r ∈ compareRegs b (currentOf p) := hr
    rw [compareRegs] at hr2
    simp only [List.mem_append] at hr2
    rcases hr2 with ((h | h) | h) | h
    · have := mem_regBlock h
      subst this; simp at hty
    · have := mem_regBlock h
      subst this; simp at hty
    · have := mem_regBlock h
      subst this; exact ⟨rfl, rfl⟩
    · have := mem_regBlock h
      subst this; simp at hty
  · intro r hr hty
    have hr2 : r ∈ compareRegs b (currentOf p) := hr
    rw [compareRegs] at hr2
    simp only [List.mem_append] at hr2
    rcases hr2 with ((h | h) | h) | h
    · have := mem_regBlock h
      subst this; simp at hty
    · have := mem_regBlock h
      subst this; simp at hty
    · have := mem_regBlock h
      subst this; simp at hty
    · have := mem_regBlock h
      subst this; exact ⟨rfl, rfl⟩
  · intro v hvb hvc
    have hmem : v ∈ missing_scripts b (currentOf p) := mem_missing_scripts.mpr ⟨hvb, hvc⟩
    have hne : (missing_scripts b (currentOf p)).isEmpty = false := by
      cases hE : (missing_scripts b (currentOf p)).isEmpty
      · rfl
      · rw [List.isEmpty_iff] at hE
        rw [hE] at hmem
        simp at hmem
    refine ⟨{ rtype := .MISSING_SCRIPTS
              severity := some .CRITICAL
              details := "Missing JavaScript files: " ++
                joinComma (missing_scripts b (currentOf p))
              items := (missing_scripts b (currentOf p)).map some }, ?_, rfl, rfl, ?_⟩
    · show _ ∈ compareRegs b (currentOf p)
      rw [compareRegs]
      simp only [List.mem_append, hne]
      exact Or.inl (Or.inr (by simp [hne]))
    · exact List.mem_map_of_mem some hmem
  · intro o hob hoc
    have hmem : o ∈ missing_styles b (currentOf p) := mem_missing_styles.mpr ⟨hob, hoc⟩
    have hne : (missing_styles b (currentOf p)).isEmpty = false := by
      cases hE : (missing_styles b (currentOf p)).isEmpty
      · rfl
      · rw [List.isEmpty_iff] at hE
        rw [hE] at hmem
        simp at hmem
    refine ⟨{ rtype := .MISSING_STYLES
              severity := some .MEDIUM
              details := "Missing CSS files: " ++
                joinComma ((missing_styles b (currentOf p)).reduceOption)
              items := missing_styles b (currentOf p) }, ?_, rfl, rfl, hmem⟩
    show _ ∈ compareRegs b (currentOf p)
    rw [compareRegs]
    simp only [List.mem_append, hne]
    exact Or.inr (by simp [hne])

/-- Concrete scenario-3 inputs: baseline ships `app.js` and `style.css`,
the current deployment lost both. -/
def c4Baseline : Baseline :=
  capture_baseline "http://example.test/" "2026-01-03T00:00:00"
    { titleTag := some { string := some "Counter" }
      scripts := [some "app.js"]
      styleLinks := [some "style.css"]
      buttons := []
      inputs := []
      idElems := []
      formCount := 0
      anchorCount := 0
      imageCount := 0 }

def c4PageCur : RawPage :=
  { titleTag := some { string := some "Counter" }
    scripts := []
    styleLinks := []
    buttons := []
    inputs := []
    idElems := []
    formCount := 0
    anchorCount := 0
    imageCount := 0 }

theorem c4_witness :
    stylesJoinFails c4Baseline (currentOf c4PageCur) = false ∧
    ("app.js" ∈ c4Baseline.struct.scripts ∧ "app.js" ∉ (currentOf c4PageCur).scripts) ∧
    (∃ r ∈ (compare_with_baseline (some c4Baseline) (.ok c4PageCur)).regressions,
      r.rtype = RegType.MISSING_SCRIPTS ∧ r.severity = some Severity.CRITICAL ∧
      some "app.js" ∈ r.items) :=
  ⟨rfl, ⟨by decide, by decide⟩, by
    have h := c4_scripts_critical_styles_medium c4Baseline c4PageCur rfl
    exact h.2.2.1 "app.js" (by decide) (by decide)⟩

/-! ## C6: button text is never compared by the diff -/

/-- Rewrite every current-page button text with an arbitrary function. -/
def setButtonTexts (f : RawBtn → String) (p : RawPage) : RawPage :=
  { p with buttons := p.buttons.map (fun rb => { rb with text := f rb }) }

/-- Rewrite every stored baseline button text with an arbitrary function. -/
def setBaselineButtonTexts (g : BButton → String) (b : Baseline) : Baseline :=
  { b with struct :=
    { b.struct with buttons :=
        b.struct.buttons.map (fun bt => { bt with text := g bt }) } }

theorem current_button_ids_setButtonTexts (f : RawBtn → String) (p : RawPage) :
    current_button_ids (currentOf (setButtonTexts f p)) =
      current_button_ids (currentOf p) := by
  unfold current_button_ids currentOf setButtonTexts
  simp only [List.map_map]
  rfl

theorem baseline_button_ids_setBaselineButtonTexts
    (g : BButton → String) (b : Baseline) :
    baseline_button_ids (setBaselineButtonTexts g b) = baseline_button_ids b := by
  unfold baseline_button_ids setBaselineButtonTexts
  simp only [List.map_map]
  rfl

/-- C6 counterexample inputs: the button keeps id `save` in both snapshots
but its visible text changes from `Save` to `Submit`. -/
def c6PageBase : RawPage :=
  { titleTag := some { string := some "Form" }
    scripts := []
    styleLinks := []
    buttons := [{ id := some "save", text := "Save", classes := none }]
    inputs := []
    idElems := ["save"]
    formCount := 0
    anchorCount := 0
    imageCount := 0 }

def c6Baseline : Baseline :=
  capture_baseline "http://example.test/" "2026-01-04T00:00:00" c6PageBase

def c6PageCur : RawPage :=
  { c6PageBase with
    buttons := [{ id := some "save", text := "Submit", classes := none }] }

/-- C6 fails on the code: a button with a stable id whose visible text
changed produces no finding at all — the comparison document at this input
has empty `regressions` and `improvements` and status `HEALTHY`, so in
particular no Medium StructuralDefect "label changed" entry exists. -/
theorem c6_counterexample :
    c6Baseline.struct.buttons.map (fun bt => (bt.id, bt.text)) =
      [(some "save", "Save")] ∧
    (currentOf c6PageCur).buttons.map (fun bt => (bt.id, bt.text)) =
      [(some "save", "Submit")] ∧
    (compare_with_baseline (some c6Baseline) (.ok c6PageCur)).regressions = [] ∧
    (compare_with_baseline (some c6Baseline) (.ok c6PageCur)).improvements = [] ∧
    (compare_with_baseline (some c6Baseline) (.ok c6PageCur)).status =
      CStatus.HEALTHY :=
  ⟨rfl, rfl, rfl, rfl, rfl⟩

/-- C6 amended: the diff never inspects button text.  Its result is invariant
under arbitrary rewriting of the text of every button, on the current page
and in the stored baseline alike, so a changed label for a stable id can
never be reported. -/
theorem c6_amended_text_never_compared (b : Baseline) (p : RawPage)
    (f : RawBtn → String) (g : BButton → String) :
    compare_with_baseline (some b) (.ok (setButtonTexts f p)) =
      compare_with_baseline (some b) (.ok p) ∧
    compare_with_baseline (some (setBaselineButtonTexts g b)) (.ok p) =
      compare_with_baseline (some b) (.ok p) := by
  constructor
  · have hmb : missing_buttons b (currentOf (setButtonTexts f p)) =
        missing_buttons b (currentOf p) := by
      unfold missing_buttons
      rw [current_button_ids_setButtonTexts]
    have hnb : new_buttons b (currentOf (setButtonTexts f p)) =
        new_buttons b (currentOf p) := by
      unfold new_buttons
      rw [current_button_ids_setButtonTexts]
    have hmi : missing_ids b (currentOf (setButtonTexts f p)) =
        missing_ids b (currentOf p) := rfl
    have hni : new_ids b (currentOf (setButtonTexts f p)) =
        new_ids b (currentOf p) := rfl
    have hms : missing_scripts b (currentOf (setButtonTexts f p)) =
        missing_scripts b (currentOf p) := rfl
    have hmst : missing_styles b (currentOf (setButtonTexts f p)) =
        missing_styles b (currentOf p) := rfl
    show (match (Except.ok (setButtonTexts f p) : Except String RawPage) with
      | .error e => compareErrorResult e
      | .ok q =>
        if stylesJoinFails b (currentOf q) then
          compareErrorResult "sequence item 0: expected str instance, NoneType found"
        else okCompareResult b (currentOf q)) = _
    simp only
    have hsf : stylesJoinFails b (currentOf (setButtonTexts f p)) =
        stylesJoinFails b (currentOf p) := by
      unfold stylesJoinFails
      rw [hmst]
    rw [hsf]
    have hok : okCompareResult b (currentOf (setButtonTexts f p)) =
        okCompareResult b (currentOf p) := by
      unfold okCompareResult compareRegs compareImps
      rw [hmb, hnb, hmi, hni, hms, hmst]
    rw [hok]
    rfl
  · have hmb : missing_buttons (setBaselineButtonTexts g b) (currentOf p) =
        missing_buttons b (currentOf p) := by
      unfold missing_buttons
      rw [baseline_button_ids_setBaselineButtonTexts]
    have hnb : new_buttons (setBaselineButtonTexts g b) (currentOf p) =
        new_buttons b (currentOf p) := by
      unfold new_buttons
      rw [baseline_button_ids_setBaselineButtonTexts]
    have hmi : missing_ids (setBaselineButtonTexts g b) (currentOf p) =
        missing_ids b (currentOf p) := rfl
    have hni : new_ids (setBaselineButtonTexts g b) (currentOf p) =
        new_ids b (currentOf p) := rfl
    have hms : missing_scripts (setBaselineButtonTexts g b) (currentOf p) =
        missing_scripts b (currentOf p) := rfl
    have hmst : missing_styles (setBaselineButtonTexts g b) (currentOf p) =
        missing_styles b (currentOf p) := rfl
    show (if stylesJoinFails (setBaselineButtonTexts g b) (currentOf p) then
        compareErrorResult "sequence item 0: expected str instance, NoneType found"
      else okCompareResult (setBaselineButtonTexts g b) (currentOf p)) = _
    have hsf : stylesJoinFails (setBaselineButtonTexts g b) (currentOf p) =
        stylesJoinFails b (currentOf p) := by
      unfold stylesJoinFails
      rw [hmst]
    rw [hsf]
    have hok : okCompareResult (setBaselineButtonTexts g b) (currentOf p) =
        okCompareResult b (currentOf p) := by
      unfold okCompareResult compareRegs compareImps
      rw [hmb, hnb, hmi, hni, hms, hmst]
      rfl
    rw [hok]
    rfl

/-! ## C10: elements without a (non-empty) id never appear in diff findings -/

/-- C10: for a baseline produced by `capture_baseline` and any current page,
every id listed by a button or element-id finding (`MISSING_BUTTONS`,
`NEW_BUTTONS`, `MISSING_ELEMENTS`, `NEW_ELEMENTS`) is a present, non-empty
string: buttons with an absent or empty id are filtered out of both id sets
before the set difference (`if btn['id']`), and element ids are filtered the
same way when `critical_ids` is captured and when the current id list is
built. -/
theorem c10_blank_ids_never_reported (url ts : String) (pb pc : RawPage)
    (hs : stylesJoinFails (capture_baseline url ts pb) (currentOf pc) = false) :
    ∀ r ∈ (compare_with_baseline (some (capture_baseline url ts pb))
              (.ok pc)).regressions ++
          (compare_with_baseline (some (capture_baseline url ts pb))
              (.ok pc)).improvements,
      (r.rtype = RegType.MISSING_BUTTONS ∨ r.rtype = RegType.NEW_BUTTONS ∨
       r.rtype = RegType.MISSING_ELEMENTS ∨ r.rtype = RegType.NEW_ELEMENTS) →
      ∀ x ∈ r.items, ∃ v : String, x = some v ∧ v ≠ "" := by
  intro r hr hty x hx
  rw [compare_eq_ok hs] at hr
  have hr2 : r ∈ compareRegs (capture_baseline url ts pb) (currentOf pc) ++
      compareImps (capture_baseline url ts pb) (currentOf pc) := hr
  rw [compareRegs, compareImps] at hr2
  simp only [List.mem_append] at hr2
  set b := capture_baseline url ts pb with hb
  set c := currentOf pc with hc
  rcases hr2 with (((h | h) | h) | h) | (h | h)
  · have := mem_regBlock h
    subst this
    simp only [List.mem_map] at hx
    obtain ⟨v, hv, hxv⟩ := hx
    refine ⟨v, hxv.symm, ?_⟩
    exact (mem_missing_buttons.mp hv).1.2
  · have := mem_regBlock h
    subst this
    simp only [List.mem_map] at hx
    obtain ⟨v, hv, hxv⟩ := hx
    refine ⟨v, hxv.symm, ?_⟩
    have hvb : v ∈ b.struct.critical_ids := (mem_missing_ids.mp hv).1
    rw [hb] at hvb
    have : v ∈ pb.idElems.filter (fun w => decide (w ≠ "")) := hvb
    exact of_decide_eq_true (List.mem_filter.mp this).2
  · have := mem_regBlock h
    subst this
    simp at hty
  · have := mem_regBlock h
    subst this
    simp at hty
  · have := mem_regBlock h
    subst this
    simp only [List.mem_map] at hx
    obtain ⟨v, hv, hxv⟩ := hx
    refine ⟨v, hxv.symm, ?_⟩
    have : v ∈ current_button_ids c := (mem_listDiff.mp hv).1
    exact (mem_truthyIds.mp this).2
  · have := mem_regBlock h
    subst this
    simp only [List.mem_map] at hx
    obtain ⟨v, hv, hxv⟩ := hx
    refine ⟨v, hxv.symm, ?_⟩
    have hvc : v ∈ current_ids c := (mem_listDiff.mp hv).1
    rw [current_ids, List.mem_dedup, hc] at hvc
    have : v ∈ pc.idElems.filter (fun w => decide (w ≠ "")) := hvc
    exact of_decide_eq_true (List.mem_filter.mp this).2

/-- C10 witness inputs: the baseline page holds a button with an empty id,
a button with no id, and an element with empty id alongside genuine ids. -/
def c10PageBase : RawPage :=
  { titleTag := some { string := some "T" }
    scripts := []
    styleLinks := []
    buttons := [{ id := some "", text := "ghost", classes := none },
                { id := none, text := "anon", classes := none },
                { id := some "real", text := "Real", classes := none }]
    inputs := []
    idElems := ["", "real"]
    formCount := 0
    anchorCount := 0
    imageCount := 0 }

/-- C10 witness current page: everything is gone, so every removable thing
shows up as missing — except the blank-id ones. -/
def c10PageCur : RawPage :=
  { c10PageBase with buttons := [], idElems := [] }

theorem c10_witness :
    stylesJoinFails (capture_baseline "u" "t" c10PageBase) (currentOf c10PageCur)
      = false ∧
    missing_buttons (capture_baseline "u" "t" c10PageBase) (currentOf c10PageCur)
      = ["real"] ∧
    (∀ r ∈ (compare_with_baseline (some (capture_baseline "u" "t" c10PageBase))
              (.ok c10PageCur)).regressions ++
          (compare_with_baseline (some (capture_baseline "u" "t" c10PageBase))
              (.ok c10PageCur)).improvements,
      (r.rtype = RegType.MISSING_BUTTONS ∨ r.rtype = RegType.NEW_BUTTONS ∨
       r.rtype = RegType.MISSING_ELEMENTS ∨ r.rtype = RegType.NEW_ELEMENTS) →
      ∀ x ∈ r.items, ∃ v : String, x = some v ∧ v ≠ "") :=
  ⟨rfl, rfl, c10_blank_ids_never_reported "u" "t" c10PageBase c10PageCur rfl⟩

/-! ## Embedding of `quality_checks.py` -/

/-- The `type` tags of quality issues in `check_quality_issues`. -/
inductive IssueType where
  | EMPTY_BUTTON
  | INPUT_WITHOUT_LABEL
  | IMAGE_WITHOUT_ALT
  | MISSING_PAGE_TITLE
  | DUPLICATE_ID
  | BUTTON_WITHOUT_ID
  | EMPTY_LINK
  | MISSING_VIEWPORT
  | MISSING_LANG
  | EXCESSIVE_INLINE_STYLES
deriving DecidableEq, Repr

/-- One quality issue.  `element` and `count` are optional because the two
aggregate warnings carry a `count` key instead of an `element` key. -/
structure Issue where
  itype : IssueType
  element : Option String
  message : String
  count : Option Nat
deriving DecidableEq, Repr

/-- A button as read by the quality checks. -/
structure QBtn where
  id : Option String
  text : String
  ariaLabel : Option String
deriving DecidableEq, Repr

/-- An input as read by the quality checks. -/
structure QInp where
  id : Option String
  itype : Option String
deriving DecidableEq, Repr

/-- An image as read by the quality checks. -/
structure QImg where
  src : Option String
  alt : Option String
deriving DecidableEq, Repr

/-- An anchor as read by the quality checks: stripped text, whether it has a
child `<img>`, and its `href`. -/
structure QLink where
  text : String
  hasImg : Bool
  href : Option String
deriving DecidableEq, Repr

/-- The facts `check_quality_issues` reads from its own parse of the page:
buttons, inputs, the `for` attributes of all `<label>` tags, images, the
title tag, the ids of all elements carrying an `id` attribute, anchors,
whether a viewport meta tag exists, the `<html>` tag with its `lang`
attribute, the number of elements with inline `style` attributes, and the
number of `<script>` tags. -/
structure QPage where
  buttons : List QBtn
  inputs : List QInp
  labelFors : List String
  images : List QImg
  titleTag : Option TitleTag
  allIds : List String
  anchors : List QLink
  viewportMeta : Bool
  htmlTag : Option (Option String)
  inlineStyledCount : Nat
  scriptCount : Nat
deriving DecidableEq, Repr

/-- Check 1: a button with no text and no aria-label → high `EMPTY_BUTTON`.
`btn_id = btn.get('id', 'unknown')`, `btn_aria_label = btn.get('aria-label', '')`. -/
def rule_empty_button (p : QPage) : List Issue :=
  p.buttons.filterMap (fun b =>
    let btn_id := b.id.getD "unknown"
    if pyStrip b.text = "" ∧ b.ariaLabel.getD "" = "" then
      some { itype := .EMPTY_BUTTON
             element := some (if btn_id ≠ "unknown" then "button#" ++ btn_id else "button")
             message := "Button with id=\"" ++ btn_id ++ "\" has no text or aria-label"
             count := none }
    else none)

/-- Check 2: an input with a truthy id, no `<label for=id>`, and a type
outside hidden/submit/button → medium `INPUT_WITHOUT_LABEL`. -/
def rule_input_label (p : QPage) : List Issue :=
  p.inputs.filterMap (fun i =>
    let inp_id := i.id.getD ""
    let inp_type := i.itype.getD "text"
    if inp_id ≠ "" ∧ ¬ p.labelFors.contains inp_id ∧
        inp_type ∉ ["hidden", "submit", "button"] then
      some { itype := .INPUT_WITHOUT_LABEL
             element := some ("input#" ++ inp_id)
             message := "Input field \"" ++ inp_id ++ "\" has no associated label"
             count := none }
    else none)

/-- Check 3: an image whose `alt` attribute is absent or falsy (empty) →
medium `IMAGE_WITHOUT_ALT`. -/
def rule_img_alt (p : QPage) : List Issue :=
  p.images.filterMap (fun im =>
    if im.alt.getD "" = "" then
      some { itype := .IMAGE_WITHOUT_ALT
             element := some ("img[src=\"" ++ im.src.getD "unknown" ++ "\"]")
             message := "Image has no alt text"
             count := none }
    else none)

/-- The single issue check 4 appends. -/
def titleIssue : Issue :=
  { itype := .MISSING_PAGE_TITLE
    element := some "title"
    message := "Page has no title or empty title"
    count := none }

/-- Check 4: `if not soup.title or not soup.title.string.strip()`.  When the
title tag exists but `.string` is `None` (e.g. an empty or composite title),
`None.strip()` raises `AttributeError` — the only raising expression inside
the big `try` block of `check_quality_issues`. -/
def rule_title (p : QPage) : Except String (List Issue) :=
  match p.titleTag with
  | none => .ok [titleIssue]
  | some t =>
    match t.string with
    | none => .error "AttributeError: NoneType has no attribute strip"
    | some s => if pyStrip s = "" then .ok [titleIssue] else .ok []

/-- `duplicate_ids = [id for id in set(all_ids) if all_ids.count(id) > 1]`. -/
def duplicate_ids (p : QPage) : List String :=
  p.allIds.dedup.filter (fun v => decide (1 < p.allIds.count v))

/-- Check 5: one critical `DUPLICATE_ID` issue per distinct duplicated id
value. -/
def rule_dup (p : QPage) : List Issue :=
  (duplicate_ids p).map (fun v =>
    { itype := .DUPLICATE_ID
      element := some ("#" ++ v)
      message := "Multiple elements have id=\"" ++ v ++ "\""
      count := none })

/-- Check 6: buttons whose id is absent or falsy while scripts are present →
one aggregate `BUTTON_WITHOUT_ID` warning carrying the count. -/
def rule_btn_no_id (p : QPage) : List Issue :=
  let buttons_without_id := p.buttons.filter (fun b => b.id.getD "" = "")
  if ¬ buttons_without_id.isEmpty ∧ 0 < p.scriptCount then
    [{ itype := .BUTTON_WITHOUT_ID
       element := none
       message := toString buttons_without_id.length ++ " button(s) have no ID"
       count := some buttons_without_id.length }]
  else []

/-- Check 7: a link with no stripped text and no child image → medium
`EMPTY_LINK`. -/
def rule_empty_link (p : QPage) : List Issue :=
  p.anchors.filterMap (fun a =>
    if pyStrip a.text = "" ∧ ¬ a.hasImg then
      some { itype := .EMPTY_LINK
             element := some ("a[href=\"" ++ a.href.getD "" ++ "\"]")
             message := "Link has no text or image"
             count := none }
    else none)

/-- Check 8: no viewport meta tag → low `MISSING_VIEWPORT`. -/
def rule_viewport (p : QPage) : List Issue :=
  if ¬ p.viewportMeta then
    [{ itype := .MISSING_VIEWPORT
       element := some "meta[name=\"viewport\"]"
       message := "Missing viewport meta tag"
       count := none }]
  else []

/-- Check 9: an `<html>` tag present without a truthy `lang` attribute → low
`MISSING_LANG`. -/
def rule_lang (p : QPage) : List Issue :=
  match p.htmlTag with
  | none => []
  | some lang =>
    if lang.getD "" = "" then
      [{ itype := .MISSING_LANG
         element := some "html"
         message := "HTML tag missing lang attribute"
         count := none }]
    else []

/-- Check 10: more than five elements with inline styles → one aggregate
`EXCESSIVE_INLINE_STYLES` warning carrying the count. -/
def rule_inline_styles (p : QPage) : List Issue :=
  if 5 < p.inlineStyledCount then
    [{ itype := .EXCESSIVE_INLINE_STYLES
       element := none
       message := toString p.inlineStyledCount ++ " elements have inline styles"
       count := some p.inlineStyledCount }]
  else []

/-- The `issues` dictionary, buckets in source append order. -/
structure QIssues where
  critical : List Issue
  high : List Issue
  medium : List Issue
  low : List Issue
  warnings : List Issue
deriving DecidableEq, Repr

/-- The empty `issues` dictionary of the `except` return path. -/
def emptyIssues : QIssues :=
  { critical := [], high := [], medium := [], low := [], warnings := [] }

/-- The body of the big `try` block of `check_quality_issues`: evaluate the
ten checks in order and bucket their issues.  The whole body fails as soon
as check 4 raises. -/
def runChecks (p : QPage) : Except String QIssues :=
  match rule_title p with
  | .error e => .error e
  | .ok titleIssues =>
    .ok { critical := rule_dup p
          high := rule_empty_button p ++ titleIssues
          medium := rule_input_label p ++ rule_img_alt p ++ rule_empty_link p
          low := rule_viewport p ++ rule_lang p
          warnings := rule_btn_no_id p ++ rule_inline_styles p }

/-- The `status` values returned by `check_quality_issues`. -/
inductive QStatus where
  | QUALITY_ISSUES_FOUND
  | QUALITY_OK
  | ERROR
deriving DecidableEq, Repr

/-- The `summary` mapping: `total_issues` counts critical + high + medium +
low (warnings are excluded). -/
structure QSummary where
  total_issues : Nat
  critical : Nat
  high : Nat
  medium : Nat
  low : Nat
  warnings : Nat
deriving DecidableEq, Repr

/-- Result document of `check_quality_issues`.  The `except` path has no
`url` or `summary` key. -/
structure QCResult where
  status : QStatus
  url : Option String
  message : Option String
  issues : QIssues
  summary : Option QSummary
deriving DecidableEq, Repr

/-- The `except` return path of `check_quality_issues`. -/
def errorQCResult (e : String) : QCResult :=
  { status := .ERROR
    url := none
    message := some ("Error checking quality: " ++ e)
    issues := emptyIssues
    summary := none }

/-- `check_quality_issues` (`quality_checks.py`): run all checks; any
exception is caught and converted to the ERROR document with empty issue
buckets; otherwise the status is `QUALITY_ISSUES_FOUND` exactly when
`total_issues > 0`. -/
def check_quality_issues (url : String) (p : QPage) : QCResult :=
  match runChecks p with
  | .error e => errorQCResult e
  | .ok iss =>
    let total := iss.critical.length + iss.high.length +
      iss.medium.length + iss.low.length
    { status := if 0 < total then .QUALITY_ISSUES_FOUND else .QUALITY_OK
      url := some url
      message := none
      issues := iss
      summary := some
        { total_issues := total
          critical := iss.critical.length
          high := iss.high.length
          medium := iss.medium.length
          low := iss.low.length
          warnings := iss.warnings.length } }

/-- The pass/fail gate of the `__main__` block of `quality_checks.py`:
`exit(1)` iff `summary.get('critical', 0) > 0 or summary.get('high', 0) > 0`. -/
def qualityGateFails (r : QCResult) : Bool :=
  match r.summary with
  | some s => decide (0 < s.critical) || decide (0 < s.high)
  | none => false

/-! ## More helper lemmas -/

theorem hashPrefix_inj {v w : String} (h : "#" ++ v = "#" ++ w) : v = w := by
  have hd : ("#" ++ v).data = ("#" ++ w).data := congrArg String.data h
  rw [String.data_append, String.data_append] at hd
  have hvw : v.data = w.data := List.append_cancel_left hd
  calc v = ⟨v.data⟩ := rfl
    _ = ⟨w.data⟩ := by rw [hvw]
    _ = w := rfl

theorem countP_decide_eq_of_nodup {l : List String} (hnd : l.Nodup) (v : String) :
    l.countP (fun w => decide (w = v)) = if v ∈ l then 1 else 0 := by
  induction l with
  | nil => simp
  | cons a t ih =>
    rw [List.nodup_cons] at hnd
    rw [List.countP_cons, ih hnd.2]
    by_cases hav : a = v
    · subst hav
      simp [hnd.1]
    · have hv : (v ∈ a :: t) ↔ (v ∈ t) := by
        rw [List.mem_cons]
        exact or_iff_right (fun h1 => hav h1.symm)
      simp [hav, hv]

theorem mem_duplicate_ids {p : QPage} {v : String} :
    v ∈ duplicate_ids p ↔ 1 < p.allIds.count v := by
  unfold duplicate_ids
  rw [List.mem_filter, List.mem_dedup]
  constructor
  · rintro ⟨-, h⟩
    exact of_decide_eq_true h
  · intro h
    refine ⟨?_, decide_eq_true h⟩
    have : 0 < p.allIds.count v := Nat.lt_of_lt_of_le Nat.zero_lt_one (Nat.le_of_lt h)
    exact List.count_pos_iff.mp this

theorem nodup_duplicate_ids (p : QPage) : (duplicate_ids p).Nodup :=
  (List.nodup_dedup p.allIds).filter _

/-! ## C5: one Critical DuplicateId finding per distinct duplicated id -/

/-- C5: on any page whose quality run completes, the critical bucket holds
only `DUPLICATE_ID` issues, and for every string `v` the number of critical
issues whose subject is `#v` is exactly one when `v` occurs at least twice
among the element ids and zero otherwise (in particular zero when it occurs
once). -/
theorem c5_one_duplicate_finding_per_value (p : QPage) (iss : QIssues)
    (h : runChecks p = .ok iss) :
    (∀ i ∈ iss.critical, i.itype = IssueType.DUPLICATE_ID) ∧
    (∀ v : String,
      iss.critical.countP (fun i => decide (i.element = some ("#" ++ v))) =
        if 1 < p.allIds.count v then 1 else 0) := by
  have hcrit : iss.critical = rule_dup p := by
    unfold runChecks at h
    cases hT : rule_title p with
    | error e => rw [hT] at h; exact absurd h (by simp)
    | ok t =>
      rw [hT] at h
      cases h
      rfl
  constructor
  · intro i hi
    rw [hcrit] at hi
    unfold rule_dup at hi
    obtain ⟨w, -, hw⟩ := List.mem_map.mp hi
    rw [← hw]
  · intro v
    rw [hcrit]
    unfold rule_dup
    rw [List.countP_map]
    have hfun : ((fun i => decide (i.element = some ("#" ++ v))) ∘
        (fun w => ({ itype := .DUPLICATE_ID
                     element := some ("#" ++ w)
                     message := "Multiple elements have id=\"" ++ w ++ "\""
                     count := none } : Issue))) =
        (fun w => decide (w = v)) := by
      funext w
      show decide (some ("#" ++ w) = some ("#" ++ v)) = decide (w = v)
      rw [decide_eq_decide]
      constructor
      · intro hc
        exact hashPrefix_inj (Option.some.inj hc)
      · intro hc
        rw [hc]
    rw [hfun, countP_decide_eq_of_nodup (nodup_duplicate_ids p)]
    by_cases hv : 1 < p.allIds.count v
    · rw [if_pos (mem_duplicate_ids.mpr hv), if_pos hv]
    · rw [if_neg (fun hm => hv (mem_duplicate_ids.mp hm)), if_neg hv]

/-- Scenario-2 page: two elements share `id="submit"`. -/
def c5Page : QPage :=
  { buttons := []
    inputs := []
    labelFors := []
    images := []
    titleTag := some { string := some "Checkout" }
    allIds := ["submit", "submit"]
    anchors := []
    viewportMeta := true
    htmlTag := some (some "en")
    inlineStyledCount := 0
    scriptCount := 0 }

/-- The issue buckets `runChecks` produces on `c5Page`. -/
def c5Issues : QIssues :=
  { critical := [{ itype := .DUPLICATE_ID
                   element := some "#submit"
                   message := "Multiple elements have id=\"submit\""
                   count := none }]
    high := []
    medium := []
    low := []
    warnings := [] }

theorem c5_witness :
    runChecks c5Page = .ok c5Issues ∧
    c5Issues.critical.countP
      (fun i => decide (i.element = some ("#" ++ "submit"))) = 1 :=
  ⟨rfl, by
    have h := c5_one_duplicate_finding_per_value c5Page c5Issues rfl
    rw [(h.2 "submit")]
    rfl⟩

/-! ## C1: verdict thresholds -/

/-- C1 counterexample page (scenario 5): an image without `alt` and an input
without a label — two medium findings, nothing critical or high. -/
def c1Page : QPage :=
  { buttons := []
    inputs := [{ id := some "name", itype := some "text" }]
    labelFors := []
    images := [{ src := some "logo.png", alt := none }]
    titleTag := some { string := some "Demo" }
    allIds := ["name"]
    anchors := []
    viewportMeta := true
    htmlTag := some (some "en")
    inlineStyledCount := 0
    scriptCount := 0 }

/-- C1 fails on the code: with exactly two Medium findings and zero
Critical/High findings, the returned verdict value is
`QUALITY_ISSUES_FOUND`, not the healthy value (`QUALITY_OK`) the claim and
spec scenario 5 prescribe — the status flips on any counted severity, not
only on Critical/High.  (Only the separate exit-code gate is restricted to
Critical/High.) -/
theorem c1_counterexample :
    (check_quality_issues "http://example.test/" c1Page).summary =
      some { total_issues := 2, critical := 0, high := 0, medium := 2,
             low := 0, warnings := 0 } ∧
    (check_quality_issues "http://example.test/" c1Page).status =
      QStatus.QUALITY_ISSUES_FOUND ∧
    (check_quality_issues "http://example.test/" c1Page).status ≠
      QStatus.QUALITY_OK ∧
    qualityGateFails (check_quality_issues "http://example.test/" c1Page) = false :=
  ⟨rfl, rfl, by decide, rfl⟩

/-- C1 amended: on every page whose checks complete, the returned status is
`QUALITY_ISSUES_FOUND` iff at least one Critical, High, Medium or Low issue
exists (warnings never count), while the separate `__main__` exit gate fails
iff at least one Critical or High issue exists; the summary always counts
every bucket, e.g. `summary.medium` is the number of Medium findings. -/
theorem c1_amended_status_any_counted_severity_gate_critical_high
    (u : String) (p : QPage) (iss : QIssues) (h : runChecks p = .ok iss) :
    ((check_quality_issues u p).status = QStatus.QUALITY_ISSUES_FOUND ↔
      0 < iss.critical.length + iss.high.length +
        iss.medium.length + iss.low.length) ∧
    ((check_quality_issues u p).status = QStatus.QUALITY_OK ↔
      iss.critical.length + iss.high.length +
        iss.medium.length + iss.low.length = 0) ∧
    (qualityGateFails (check_quality_issues u p) = true ↔
      0 < iss.critical.length ∨ 0 < iss.high.length) ∧
    (check_quality_issues u p).summary = some
      { total_issues := iss.critical.length + iss.high.length +
          iss.medium.length + iss.low.length
        critical := iss.critical.length
        high := iss.high.length
        medium := iss.medium.length
        low := iss.low.length
        warnings := iss.warnings.length } := by
  have hr : check_quality_issues u p =
      { status := if 0 < iss.critical.length + iss.high.length +
            iss.medium.length + iss.low.length
          then .QUALITY_ISSUES_FOUND else .QUALITY_OK
        url := some u
        message := none
        issues := iss
        summary := some
          { total_issues := iss.critical.length + iss.high.length +
              iss.medium.length + iss.low.length
            critical := iss.critical.length
            high := iss.high.length
            medium := iss.medium.length
            low := iss.low.length
            warnings := iss.warnings.length } } := by
    unfold check_quality_issues
    rw [h]
  rw [hr]
  refine ⟨?_, ?_, ?_, rfl⟩
  · by_cases hp : 0 < iss.critical.length + iss.high.length +
        iss.medium.length + iss.low.length
    · simp [hp]
    · simp [hp]
  · by_cases hp : 0 < iss.critical.length + iss.high.length +
        iss.medium.length + iss.low.length
    · simp [hp, Nat.pos_iff_ne_zero.mp hp]
    · simp [hp, Nat.eq_zero_of_not_pos hp]
  · show (decide (0 < iss.critical.length) || decide (0 < iss.high.length)) = true ↔ _
    simp

/-- A page with one High finding (a button with no text and no aria-label),
used to instantiate the amended C1 theorem. -/
def c1HighPage : QPage :=
  { buttons := [{ id := some "go", text := "", ariaLabel := none }]
    inputs := []
    labelFors := []
    images := []
    titleTag := some { string := some "Demo" }
    allIds := ["go"]
    anchors := []
    viewportMeta := true
    htmlTag := some (some "en")
    inlineStyledCount := 0
    scriptCount := 0 }

/-- The issue buckets `runChecks` produces on `c1HighPage`. -/
def c1HighIssues : QIssues :=
  { critical := []
    high := [{ itype := .EMPTY_BUTTON
               element := some "button#go"
               message := "Button with id=\"go\" has no text or aria-label"
               count := none }]
    medium := []
    low := []
    warnings := [] }

theorem c1_witness :
    runChecks c1HighPage = .ok c1HighIssues ∧
    ((check_quality_issues "u" c1HighPage).status = QStatus.QUALITY_ISSUES_FOUND ↔
      0 < c1HighIssues.critical.length + c1HighIssues.high.length +
        c1HighIssues.medium.length + c1HighIssues.low.length) ∧
    qualityGateFails (check_quality_issues "u" c1HighPage) = true :=
  ⟨rfl,
   (c1_amended_status_any_counted_severity_gate_critical_high
      "u" c1HighPage c1HighIssues rfl).1,
   by
    have h := (c1_amended_status_any_counted_severity_gate_critical_high
      "u" c1HighPage c1HighIssues rfl).2.2.1
    exact h.mpr (Or.inr (by decide))⟩

/-! ## C7: a raising rule aborts the whole quality run -/

/-- C7 counterexample page: the title tag exists but `.string` is absent
(check 4 raises), and the page also carries a duplicate id that check 5
would report. -/
def c7Page : QPage :=
  { buttons := []
    inputs := []
    labelFors := []
    images := []
    titleTag := some { string := none }
    allIds := ["submit", "submit"]
    anchors := []
    viewportMeta := true
    htmlTag := some (some "en")
    inlineStyledCount := 0
    scriptCount := 0 }

/-- C7 fails on the code: when the page-title rule raises, the whole run is
aborted by the single outer `except` — the result is the ERROR document with
every bucket empty: no `StructuralDefect`/Warning issue notes the failure
(`warnings = []`) and the duplicate-id finding the remaining rule would have
produced (`rule_dup` is non-empty here) is discarded (`critical = []`). -/
theorem c7_counterexample :
    rule_dup c7Page =
      [{ itype := .DUPLICATE_ID
         element := some "#submit"
         message := "Multiple elements have id=\"submit\""
         count := none }] ∧
    (check_quality_issues "u" c7Page).status = QStatus.ERROR ∧
    (check_quality_issues "u" c7Page).issues.critical = [] ∧
    (check_quality_issues "u" c7Page).issues.warnings = [] :=
  ⟨rfl, rfl, rfl, rfl⟩

/-- C7 amended: a single rule raising (check 4, the only one that can) does
abort the whole Quality Engine run: `check_quality_issues` returns the ERROR
document with empty issue buckets, so no converted Warning finding exists
and no findings of the remaining rules survive. -/
theorem c7_amended_rule_error_aborts_whole_run
    (u : String) (p : QPage) (e : String) (h : rule_title p = .error e) :
    check_quality_issues u p = errorQCResult e ∧
    (check_quality_issues u p).issues.warnings = [] ∧
    (check_quality_issues u p).issues.critical = [] := by
  have hrun : runChecks p = .error e := by
    unfold runChecks
    rw [h]
  have hres : check_quality_issues u p = errorQCResult e := by
    unfold check_quality_issues
    rw [hrun]
  refine ⟨hres, ?_, ?_⟩ <;> rw [hres] <;> rfl

theorem c7_witness :
    rule_title c7Page = .error "AttributeError: NoneType has no attribute strip" ∧
    check_quality_issues "u" c7Page =
      errorQCResult "AttributeError: NoneType has no attribute strip" :=
  ⟨rfl,
   (c7_amended_rule_error_aborts_whole_run "u" c7Page
      "AttributeError: NoneType has no attribute strip" rfl).1⟩

/-! ## C8: internal failures yield an Error result with empty findings -/

/-- C8: whenever the quality-check body fails, `check_quality_issues` returns
status ERROR with every issue bucket empty and no summary; whenever the diff
body fails (failed fetch, or the stylesheet join raising),
`compare_with_baseline` returns status ERROR with empty regression and
improvement lists — no partial findings accompany an error, and the ERROR
status is a value distinct from the issues-detected statuses. -/
theorem c8_no_exception_escapes_error_is_empty :
    (∀ (u : String) (p : QPage) (e : String), runChecks p = .error e →
      (check_quality_issues u p).status = QStatus.ERROR ∧
      (check_quality_issues u p).issues = emptyIssues ∧
      (check_quality_issues u p).summary = none) ∧
    (∀ (b : Baseline) (e : String),
      (compare_with_baseline (some b) (.error e)).status = CStatus.ERROR ∧
      (compare_with_baseline (some b) (.error e)).regressions = [] ∧
      (compare_with_baseline (some b) (.error e)).improvements = []) ∧
    (∀ (b : Baseline) (p : RawPage), stylesJoinFails b (currentOf p) = true →
      (compare_with_baseline (some b) (.ok p)).status = CStatus.ERROR ∧
      (compare_with_baseline (some b) (.ok p)).regressions = [] ∧
      (compare_with_baseline (some b) (.ok p)).improvements = []) ∧
    QStatus.ERROR ≠ QStatus.QUALITY_ISSUES_FOUND ∧
    CStatus.ERROR ≠ CStatus.REGRESSIONS_FOUND := by
  refine ⟨?_, ?_, ?_, by decide, by decide⟩
  · intro u p e h
    have hres : check_quality_issues u p = errorQCResult e := by
      unfold check_quality_issues
      rw [h]
    rw [hres]
    exact ⟨rfl, rfl, rfl⟩
  · intro b e
    exact ⟨rfl, rfl, rfl⟩
  · intro b p h
    have hres : compare_with_baseline (some b) (.ok p) =
        compareErrorResult "sequence item 0: expected str instance, NoneType found" := by
      simp [compare_with_baseline, h]
    rw [hres]
    exact ⟨rfl, rfl, rfl⟩

/-- C8 witness page for the quality side: check 4 raises. -/
def c8Page : QPage :=
  { buttons := []
    inputs := []
    labelFors := []
    images := []
    titleTag := some { string := none }
    allIds := []
    anchors := []
    viewportMeta := true
    htmlTag := some (some "en")
    inlineStyledCount := 0
    scriptCount := 0 }

/-- C8 witness baseline for the diff side: a stored stylesheet entry is null
and disappears, so the join over the missing set raises. -/
def c8Baseline : Baseline :=
  { url := "u"
    timestamp := "t"
    struct :=
      { title := some "T"
        scripts := []
        stylesheets := [none]
        buttons := []
        inputs := []
        critical_ids := []
        element_counts :=
          { buttons := 0, inputs := 0, forms := 0, links := 0,
            images := 0, scripts := 0, styles := 0 } } }

def c8PageCur : RawPage :=
  { titleTag := some { string := some "T" }
    scripts := []
    styleLinks := []
    buttons := []
    inputs := []
    idElems := []
    formCount := 0
    anchorCount := 0
    imageCount := 0 }

theorem c8_witness :
    runChecks c8Page = .error "AttributeError: NoneType has no attribute strip" ∧
    (check_quality_issues "u" c8Page).issues = emptyIssues ∧
    stylesJoinFails c8Baseline (currentOf c8PageCur) = true ∧
    (compare_with_baseline (some c8Baseline) (.ok c8PageCur)).regressions = [] :=
  ⟨rfl,
   (c8_no_exception_escapes_error_is_empty.1 "u" c8Page
      "AttributeError: NoneType has no attribute strip" rfl).2.1,
   rfl,
   (c8_no_exception_escapes_error_is_empty.2.2.1 c8Baseline c8PageCur rfl).2.1⟩

/-! ## C9: baseline save / load round-trip

`capture_baseline` persists the baseline dictionary with `json.dump` and
`load_baseline` reads it back with `json.load`.  The persisted document is
modelled as a JSON value; `encodeBaseline` is the document `json.dump`
writes (field for field, in source order) and `decodeBaseline` maps that
document back to the typed snapshot, inverting the dump format. -/

/-- JSON values as produced by `json.dump` on the baseline dictionary
(strings, null, naturals, arrays, objects). -/
inductive Json where
  | null
  | str (s : String)
  | num (n : Nat)
  | arr (xs : List Json)
  | obj (fields : List (String × Json))

/-- `None` → null, string → string. -/
def encodeOptStr : Option String → Json
  | none => .null
  | some s => .str s

def decodeOptStr : Json → Option (Option String)
  | .null => some none
  | .str s => some (some s)
  | _ => none

def encodeStrList (l : List String) : Json :=
  .arr (l.map .str)

def decodeStrs : List Json → Option (List String)
  | [] => some []
  | .str s :: rest => (decodeStrs rest).map (fun t => s :: t)
  | _ => none

def decodeStrList : Json → Option (List String)
  | .arr xs => decodeStrs xs
  | _ => none

def encodeOptStrList (l : List (Option String)) : Json :=
  .arr (l.map encodeOptStr)

def decodeOptStrs : List Json → Option (List (Option String))
  | [] => some []
  | j :: rest =>
    match decodeOptStr j with
    | some o => (decodeOptStrs rest).map (fun t => o :: t)
    | none => none

def decodeOptStrList : Json → Option (List (Option String))
  | .arr xs => decodeOptStrs xs
  | _ => none

/-- A stored button: `{'id': ..., 'text': ..., 'classes': [...]}`. -/
def encodeButton (bt : BButton) : Json :=
  .obj [("id", encodeOptStr bt.id), ("text", .str bt.text),
        ("classes", encodeStrList bt.classes)]

def decodeButton : Json → Option BButton
  | .obj [("id", jid), ("text", .str t), ("classes", jcl)] =>
    match decodeOptStr jid, decodeStrList jcl with
    | some i, some cl => some { id := i, text := t, classes := cl }
    | _, _ => none
  | _ => none

def decodeButtons : List Json → Option (List BButton)
  | [] => some []
  | j :: rest =>
    match decodeButton j with
    | some bt => (decodeButtons rest).map (fun t => bt :: t)
    | none => none

/-- A stored input: `{'id': ..., 'type': ..., 'name': ...}`. -/
def encodeInput (bi : BInput) : Json :=
  .obj [("id", encodeOptStr bi.id), ("type", encodeOptStr bi.itype),
        ("name", encodeOptStr bi.name)]

def decodeInput : Json → Option BInput
  | .obj [("id", jid), ("type", jty), ("name", jn)] =>
    match decodeOptStr jid, decodeOptStr jty, decodeOptStr jn with
    | some i, some ty, some n => some { id := i, itype := ty, name := n }
    | _, _, _ => none
  | _ => none

def decodeInputs : List Json → Option (List BInput)
  | [] => some []
  | j :: rest =>
    match decodeInput j with
    | some bi => (decodeInputs rest).map (fun t => bi :: t)
    | none => none

def encodeCounts (ec : ElementCounts) : Json :=
  .obj [("buttons", .num ec.buttons), ("inputs", .num ec.inputs),
        ("forms", .num ec.forms), ("links", .num ec.links),
        ("images", .num ec.images), ("scripts", .num ec.scripts),
        ("styles", .num ec.styles)]

def decodeCounts : Json → Option ElementCounts
  | .obj [("buttons", .num b), ("inputs", .num i), ("forms", .num f),
          ("links", .num l), ("images", .num im), ("scripts", .num sc),
          ("styles", .num st)] =>
    some { buttons := b, inputs := i, forms := f, links := l,
           images := im, scripts := sc, styles := st }
  | _ => none

def encodeStructure (st : BaselineStructure) : Json :=
  .obj [("title", encodeOptStr st.title),
        ("scripts", encodeStrList st.scripts),
        ("stylesheets", encodeOptStrList st.stylesheets),
        ("buttons", .arr (st.buttons.map encodeButton)),
        ("inputs", .arr (st.inputs.map encodeInput)),
        ("critical_ids", encodeStrList st.critical_ids),
        ("element_counts", encodeCounts st.element_counts)]

def decodeStructure : Json → Option BaselineStructure
  | .obj [("title", jt), ("scripts", js), ("stylesheets", jst),
          ("buttons", .arr jb), ("inputs", .arr ji),
          ("critical_ids", jc), ("element_counts", je)] =>
    match decodeOptStr jt, decodeStrList js, decodeOptStrList jst,
        decodeButtons jb, decodeInputs ji, decodeStrList jc,
        decodeCounts je with
    | some t, some s, some sl, some bs, some is_, some ci, some ec =>
      some { title := t, scripts := s, stylesheets := sl, buttons := bs,
             inputs := is_, critical_ids := ci, element_counts := ec }
    | _, _, _, _, _, _, _ => none
  | _ => none

/-- The persisted baseline document
`{'url': ..., 'timestamp': ..., 'structure': {...}}`. -/
def encodeBaseline (b : Baseline) : Json :=
  .obj [("url", .str b.url), ("timestamp", .str b.timestamp),
        ("structure", encodeStructure b.struct)]

def decodeBaseline : Json → Option Baseline
  | .obj [("url", .str u), ("timestamp", .str ts), ("structure", js)] =>
    match decodeStructure js with
    | some st => some { url := u, timestamp := ts, struct := st }
    | none => none
  | _ => none

/-- The external keyed store (one document per baseline-file path). -/
def BaselineStore : Type := String → Option Json

/-- `json.dump(baseline, f)`: store the encoded document under the key,
overwriting any prior document. -/
def save_baseline (st : BaselineStore) (k : String) (b : Baseline) :
    BaselineStore :=
  fun k2 => if k2 = k then some (encodeBaseline b) else st k2

/-- `load_baseline` (`baseline.py`): an absent file yields `None`; otherwise
the stored document is read back (`json.load`) and mapped to the typed
snapshot. -/
def load_baseline (st : BaselineStore) (k : String) : Option Baseline :=
  match st k with
  | none => none
  | some j => decodeBaseline j

theorem decodeOptStr_encode (o : Option String) :
    decodeOptStr (encodeOptStr o) = some o := by
  cases o <;> rfl

theorem decodeStrs_encode (l : List String) :
    decodeStrs (l.map .str) = some l := by
  induction l with
  | nil => rfl
  | cons a t ih => simp [decodeStrs, ih]

theorem decodeOptStrs_encode (l : List (Option String)) :
    decodeOptStrs (l.map encodeOptStr) = some l := by
  induction l with
  | nil => rfl
  | cons a t ih => simp [decodeOptStrs, decodeOptStr_encode, ih]

theorem decodeButton_encode (bt : BButton) :
    decodeButton (encodeButton bt) = some bt := by
  cases bt with
  | mk i t cl =>
    cases i <;>
      simp [encodeButton, decodeButton, encodeOptStr, decodeOptStr,
        encodeStrList, decodeStrList, decodeStrs_encode]

theorem decodeButtons_encode (l : List BButton) :
    decodeButtons (l.map encodeButton) = some l := by
  induction l with
  | nil => rfl
  | cons a t ih => simp [decodeButtons, decodeButton_encode, ih]

theorem decodeInput_encode (bi : BInput) :
    decodeInput (encodeInput bi) = some bi := by
  cases bi with
  | mk i ty n =>
    cases i <;> cases ty <;> cases n <;>
      simp [encodeInput, decodeInput, encodeOptStr, decodeOptStr]

theorem decodeInputs_encode (l : List BInput) :
    decodeInputs (l.map encodeInput) = some l := by
  induction l with
  | nil => rfl
  | cons a t ih => simp [decodeInputs, decodeInput_encode, ih]

theorem decodeCounts_encode (ec : ElementCounts) :
    decodeCounts (encodeCounts ec) = some ec := rfl

theorem decodeStructure_encode (st : BaselineStructure) :
    decodeStructure (encodeStructure st) = some st := by
  cases st with
  | mk t s sl bs is_ ci ec =>
    cases t <;>
      simp [encodeStructure, decodeStructure, encodeOptStr, decodeOptStr,
        encodeStrList, decodeStrList, decodeStrs_encode,
        encodeOptStrList, decodeOptStrList, decodeOptStrs_encode,
        decodeButtons_encode, decodeInputs_encode, decodeCounts_encode]

theorem decodeBaseline_encode (b : Baseline) :
    decodeBaseline (encodeBaseline b) = some b := by
  cases b with
  | mk u ts st =>
    simp [encodeBaseline, decodeBaseline, decodeStructure_encode]

/-- C9: saving a snapshot under a key and loading that key back reconstructs
a field-wise equal snapshot — every persisted field (url, timestamp, title,
scripts, stylesheets, buttons, inputs, critical ids, element counts)
round-trips through the stored document. -/
theorem c9_save_load_roundtrip (st : BaselineStore) (k : String) (b : Baseline) :
    load_baseline (save_baseline st k b) k = some b ∧
    decodeBaseline (encodeBaseline b) = some b := by
  refine ⟨?_, decodeBaseline_encode b⟩
  show (match (if k = k then some (encodeBaseline b) else st k)
      with
    | none => none
    | some j => decodeBaseline j) = some b
  rw [if_pos rfl]
  exact decodeBaseline_encode b
